import Mathlib

/-!
Shallow embedding of the Metro-North Railroad train clock sketch
(src/docs/arduino-train-clock/src/main.cpp) together with theorems about
its parsing, rendering, scheduling and connection logic.

Modelling conventions:
* The ArduinoJson document is modelled by the inductive type `Json`;
  `operator[]` on an object, the `|` default operator and the conversion
  of a value to `JsonArray` are modelled by `getMember`, `strOr`/`intOr`
  and `asArray`, following the library's documented behaviour (a missing
  key or a subscript on a non-object yields null; `v | d` yields `d`
  unless `v` holds a value of the requested type; converting a non-array
  to `JsonArray` yields a null array whose size is 0 and whose iteration
  is empty).
* Output on the serial port is modelled as a `List String` of the printed
  lines; consecutive `Serial.print` calls that build one line are
  concatenated, and a `\n` inside a printed literal starts a new line.
* `strlen` on a field value is modelled by `String.length`; the two agree
  for ASCII field content, which is what the documented column widths are
  stated for.  C `int` arithmetic on these small quantities is modelled
  by `Int`.
* `millis()` values are modelled by `Nat`, assuming the 32-bit counter
  does not wrap.
-/

set_option maxRecDepth 16384

namespace MNR

/-- JSON values as stored in an ArduinoJson `JsonDocument`. -/
inductive Json where
  | null
  | str (s : String)
  | int (n : Int)
  | bool (b : Bool)
  | arr (elems : List Json)
  | obj (fields : List (String × Json))

/-- `doc[key]` / `train[key]`: member access on a JSON value.  A missing
key, or subscripting a non-object, yields the null value. -/
def getMember (j : Json) (k : String) : Json :=
  match j with
  | .obj fields =>
    match fields.find? (fun f => f.1 == k) with
    | some f => f.2
    | none => .null
  | _ => .null

/-- `doc.containsKey(key)` (main.cpp line 197). -/
def containsKey (j : Json) (k : String) : Bool :=
  match j with
  | .obj fields => fields.any (fun f => f.1 == k)
  | _ => false

/-- `value | default` for `const char*` defaults: the stored string if the
value holds a string, otherwise the default (lines 217-222). -/
def strOr (j : Json) (d : String) : String :=
  match j with
  | .str s => s
  | _ => d

/-- `value | default` for `int` defaults: the stored integer if the value
holds one, otherwise the default (line 223). -/
def intOr (j : Json) (d : Int) : Int :=
  match j with
  | .int n => n
  | _ => d

/-- `JsonArray trains = doc["trains"]` (line 204): converting a non-array
value yields a null array, which has size 0 and iterates over nothing. -/
def asArray (j : Json) : List Json :=
  match j with
  | .arr l => l
  | _ => []

/-- Whether a JSON value holds a string. -/
def isStr (j : Json) : Bool :=
  match j with
  | .str _ => true
  | _ => false

/-- Whether a JSON value holds an integer. -/
def isInt (j : Json) : Bool :=
  match j with
  | .int _ => true
  | _ => false

/-- Whether a JSON value holds an array. -/
def isArr (j : Json) : Bool :=
  match j with
  | .arr _ => true
  | _ => false

/-- The padding loop `for (int i = 0; i < padding; i++) Serial.print(" ");`
(lines 234, 243, 250, 257, 274): emits one space per iteration, starting
at `i` and stopping as soon as `i < padding` fails, so a negative or zero
`padding` emits nothing. -/
def printPadding (i padding : Int) : String :=
  if _h : i < padding then " " ++ printPadding (i + 1) padding else ""
termination_by (padding - i).toNat
decreasing_by omega

/-- One parsed train record with the defaults of lines 217-223 applied. -/
structure ArrivalRecord where
  trip_id : String
  route : String
  destination : String
  track : String
  arrival_time : String
  status : String
  delay_seconds : Int
deriving DecidableEq

/-- Field extraction for one element of the `trains` array
(lines 217-223): every field falls back to its documented default. -/
def parseRecord (train : Json) : ArrivalRecord :=
  { trip_id := strOr (getMember train "trip_id") "N/A"
    route := strOr (getMember train "route") "Unknown Route"
    destination := strOr (getMember train "destination") "Unknown"
    track := strOr (getMember train "track") "TBD"
    arrival_time := strOr (getMember train "arrival_time") "N/A"
    status := strOr (getMember train "status") "Unknown"
    delay_seconds := intOr (getMember train "delay_seconds") 0 }

/-- The run of 59 box-drawing dashes between the corner characters of the
borders printed at lines 226, 237 and 277. -/
def borderDashes : String := String.mk (List.replicate 59 '─')

/-- Top border of a record block (line 226): corner, 59 dashes, corner. -/
def topBorder : String := "┌" ++ borderDashes ++ "┐"

/-- Separator between the header and the field lines (line 237). -/
def separatorLine : String := "├" ++ borderDashes ++ "┤"

/-- Bottom border of a record block (line 277). -/
def bottomBorder : String := "└" ++ borderDashes ++ "┘"

/-- Header line of a record block (lines 227-235):
`│ Train #<count> - <route>` followed by `50 - strlen(route) - 12`
padding spaces and the closing border. -/
def headerLine (count : Nat) (route : String) : String :=
  "│ Train #" ++ toString count ++ " - " ++ route ++
    printPadding 0 (50 - (route.length : Int) - 12) ++ "│"

/-- Destination line (lines 240-244). -/
def destinationLine (destination : String) : String :=
  "│ → Destination:  " ++ destination ++
    printPadding 0 (44 - (destination.length : Int)) ++ "│"

/-- Track line (lines 247-251). -/
def trackLine (track : String) : String :=
  "│   Track:        " ++ track ++
    printPadding 0 (44 - (track.length : Int)) ++ "│"

/-- Arrival-time line (lines 254-258). -/
def arrivalLine (arrival_time : String) : String :=
  "│   Arrival:      " ++ arrival_time ++
    printPadding 0 (44 - (arrival_time.length : Int)) ++ "│"

/-- Status line (lines 261-275): when `delay_seconds > 0` the suffix
`" (+<delay_seconds / 60> min)"` is appended (C integer division, which
agrees with Lean's on the positive operands reached here) and the padding
is `44 - strlen(status) - 8 - (delay_seconds >= 600 ? 1 : 0)`; otherwise
the padding is `44 - strlen(status)`. -/
def statusLine (status : String) (delay_seconds : Int) : String :=
  if delay_seconds > 0 then
    "│   Status:       " ++ status ++ " (+" ++ toString (delay_seconds / 60) ++ " min)" ++
      printPadding 0 (44 - (status.length : Int) - 8 -
        (if delay_seconds ≥ 600 then 1 else 0)) ++ "│"
  else
    "│   Status:       " ++ status ++ printPadding 0 (44 - (status.length : Int)) ++ "│"

/-- The nine lines printed for one record (lines 213-278), ending with the
blank line of line 278. -/
def recordBlock (count : Nat) (train : Json) : List String :=
  let r := parseRecord train
  [ topBorder,
    headerLine count r.route,
    separatorLine,
    destinationLine r.destination,
    trackLine r.track,
    arrivalLine r.arrival_time,
    statusLine r.status r.delay_seconds,
    bottomBorder,
    "" ]

/-- The `for (JsonObject train : trains)` loop of lines 212-279, carrying
the `count` variable: returns the printed lines and the final count. -/
def renderTrains (count : Nat) : List Json → List String × Nat
  | [] => ([], count)
  | t :: rest =>
    let block := recordBlock (count + 1) t
    let tail := renderTrains (count + 1) rest
    (block ++ tail.1, tail.2)

/-- The banner printed at the top of every report (lines 192-194); the
leading `\n` of line 192 and the trailing `\n` of line 194 appear as
empty lines. -/
def bannerLines : List String :=
  [ "",
    "╔" ++ String.mk (List.replicate 59 '═') ++ "╗",
    "║           METRO-NORTH RAILROAD - UPCOMING TRAINS          ║",
    "╚" ++ String.mk (List.replicate 59 '═') ++ "╝",
    "" ]

/-- The report for a document with no "trains" key (lines 198-200). -/
def noTrainDataLines : List String :=
  [ "No train data available",
    "",
    "Note: Ensure your web server provides JSON in the format:",
    "  \x7b \"trains\": [ \x7b \"trip_id\": \"...\", \"route\": \"...\", ... \x7d ] \x7d" ]

/-- `displayTrainInfo(doc)` (lines 191-287) as the list of printed lines;
`millisNow` is the value `millis()` returns at line 284. -/
def displayTrainInfo (doc : Json) (millisNow : Nat) : List String :=
  bannerLines ++
    (if !containsKey doc "trains" then
      noTrainDataLines
    else
      let trains := asArray (getMember doc "trains")
      if trains.length == 0 then
        ["No upcoming trains scheduled"]
      else
        let rendered := renderTrains 0 trains
        rendered.1 ++
          [ "Total trains: " ++ toString rendered.2,
            "Last updated: " ++ toString (millisNow / 1000) ++ " seconds since boot",
            "" ])

/-- The configured endpoint URL (config.example.h, `API_ENDPOINT`). -/
def apiEndpoint : String := "http://192.168.1.100:5000/api/trains"

/-- `HTTP_CODE_OK`, the success status compared against at line 149. -/
def HTTP_CODE_OK : Int := 200

/-- `UPDATE_INTERVAL` (line 33): 30000 ms between passes. -/
def UPDATE_INTERVAL : Nat := 30000

/-- The external world one fetch pass interacts with: the link state at
entry, the result of `http.GET()` (non-positive codes are the library's
transport-error codes), the outcome of `deserializeJson` on a 200 body
(`.error e` carries `error.c_str()`), and the `millis()` value observed
while rendering. -/
structure FetchEnv where
  wifiConnected : Bool
  httpCode : Int
  parsedBody : Except String Json
  millisNow : Nat

/-- `HTTPClient::errorToString(code)`: the library's description of a
transport error; its exact text is irrelevant to the claims. -/
def errorToString (code : Int) : String :=
  "connection error " ++ toString code

/-- `fetchTrainData()` (lines 125-171) as the list of printed lines:
bails out when the link is down, reports transport errors
(`httpCode <= 0`), non-success statuses, and JSON parse failures, and
renders the document otherwise. -/
def fetchTrainData (env : FetchEnv) : List String :=
  if !env.wifiConnected then
    ["Cannot fetch data: WiFi not connected"]
  else
    ["", "--- Fetching Train Data ---", "Endpoint: " ++ apiEndpoint] ++
      (if env.httpCode > 0 then
        ["HTTP Response Code: " ++ toString env.httpCode] ++
          (if env.httpCode = HTTP_CODE_OK then
            match env.parsedBody with
            | .error e => ["JSON parsing failed: " ++ e]
            | .ok doc => displayTrainInfo doc env.millisNow
          else
            ["HTTP request failed"])
      else
        ["HTTP request error: " ++ errorToString env.httpCode])

/-- Whether a pass runs to a full render: the link is up, `http.GET()`
returned a positive code equal to `HTTP_CODE_OK`, and the body decoded.
Every other combination ends the pass early on one of the reporting
branches of `fetchTrainData`. -/
def passSucceeded (env : FetchEnv) : Bool :=
  env.wifiConnected && decide (0 < env.httpCode) &&
    decide (env.httpCode = HTTP_CODE_OK) &&
    (match env.parsedBody with
     | .ok _ => true
     | .error _ => false)

/-- The scheduling step of `loop()` (lines 75-78) as it affects
`lastUpdate`: when `millis() - lastUpdate >= UPDATE_INTERVAL` the pass
runs and `lastUpdate` is set to the `millis()` value read after the
fetch (`afterFetch`); otherwise nothing happens.  `now` is the `millis()`
value read in the guard. -/
def loopIteration (env : FetchEnv) (now afterFetch lastUpdate : Nat) :
    Nat × List String :=
  if UPDATE_INTERVAL ≤ now - lastUpdate then
    (afterFetch, fetchTrainData env)
  else
    (lastUpdate, [])

/-- The tail of `setup()` (lines 60-61): the initial fetch followed by
`lastUpdate = millis()`, performed whether or not the fetch succeeded. -/
def setupPass (env : FetchEnv) (millisAfterFetch : Nat) :
    Nat × List String :=
  (millisAfterFetch, fetchTrainData env)

/-- Observable actions of `connectWiFi()` (lines 87-108) other than pure
serial text: selecting station mode, starting a join attempt, and one
500 ms wait (with its progress dot) per polling iteration. -/
inductive WifiEvent where
  | setModeSTA
  | beginJoin
  | waitDot
deriving DecidableEq

/-- The polling loop of lines 94-99, with the link state modelled as a
function `wifiStatus` of the attempt counter (true = `WL_CONNECTED`).
`fuel` stands for `40 - attempts`, so `fuel = 0` is exactly the loop
bound `attempts < 40` failing; each iteration burns one unit. -/
def connectLoop (wifiStatus : Nat → Bool) (attempts : Nat) : Nat → Nat
  | 0 => attempts
  | fuel + 1 =>
    if wifiStatus attempts then attempts
    else connectLoop wifiStatus (attempts + 1) fuel

/-- `connectWiFi()` (lines 87-108): unconditionally selects station mode
and starts a join attempt, polls up to 40 times at 500 ms, and returns
whether the final status check of line 101 reports `WL_CONNECTED`
(true prints "WiFi connected!", false prints the failure notice). -/
def connectWiFi (wifiStatus : Nat → Bool) : List WifiEvent × Bool :=
  let attempts := connectLoop wifiStatus 0 40
  ([WifiEvent.setModeSTA, WifiEvent.beginJoin] ++
      List.replicate attempts WifiEvent.waitDot,
    wifiStatus attempts)

/-! Helper lemmas. -/

/-- The padding loop emits exactly `(padding - i).toNat` spaces. -/
theorem printPadding_eq_replicate (i padding : Int) :
    printPadding i padding = String.mk (List.replicate (padding - i).toNat ' ') := by
  generalize hn : (padding - i).toNat = n
  induction n generalizing i with
  | zero =>
    rw [printPadding]
    have h : ¬i < padding := by omega
    simp [h]
  | succ n ih =>
    rw [printPadding]
    have h : i < padding := by omega
    rw [dif_pos h, ih (i + 1) (by omega)]
    rfl

/-- Length of the emitted padding: clamped at zero by `Int.toNat`. -/
theorem printPadding_length (i padding : Int) :
    (printPadding i padding).length = (padding - i).toNat := by
  rw [printPadding_eq_replicate]
  simp [String.length]

/-- A non-positive padding value emits no spaces at all. -/
theorem printPadding_nonpos (padding : Int) (h : padding ≤ 0) :
    printPadding 0 padding = "" := by
  rw [printPadding_eq_replicate]
  have : (padding - 0).toNat = 0 := by omega
  rw [this]
  rfl

/-- A string-typed default is returned whenever the value is not a string. -/
theorem strOr_of_not_str (j : Json) (d : String) (h : isStr j = false) :
    strOr j d = d := by
  cases j <;> first | rfl | simp [isStr] at h

/-- An int-typed default is returned whenever the value is not an integer. -/
theorem intOr_of_not_int (j : Json) (d : Int) (h : isInt j = false) :
    intOr j d = d := by
  cases j <;> first | rfl | simp [isInt] at h

/-- Converting a non-array value to `JsonArray` yields the empty view. -/
theorem asArray_of_not_arr (j : Json) (h : isArr j = false) :
    asArray j = [] := by
  cases j <;> first | rfl | simp [isArr] at h

/-- The polling loop increments the attempt counter at most `fuel` times. -/
theorem connectLoop_le (wifiStatus : Nat → Bool) (fuel : Nat) :
    ∀ a, connectLoop wifiStatus a fuel ≤ a + fuel := by
  induction fuel with
  | zero => intro a; simp [connectLoop]
  | succ n ih =>
    intro a
    by_cases h : wifiStatus a
    · simp [connectLoop, h]
    · simp only [connectLoop, h, if_neg, Bool.false_eq_true, ↓reduceIte]
      exact le_trans (ih (a + 1)) (by omega)

/-- A loop with fuel left returns at once when the link reports
connected. -/
theorem connectLoop_connected (wifiStatus : Nat → Bool) (a fuel : Nat)
    (h : wifiStatus a = true) : connectLoop wifiStatus a (fuel + 1) = a := by
  simp [connectLoop, h]

/-- Rendered decimal width of a one-digit nonnegative integer. -/
theorem intToString_length_one (m : Int) (h0 : 0 ≤ m) (h9 : m < 10) :
    (toString m).length = 1 := by
  interval_cases m <;> rfl

/-- Rendered decimal width of a two-digit integer. -/
theorem intToString_length_two (m : Int) (h0 : 10 ≤ m) (h9 : m < 100) :
    (toString m).length = 2 := by
  interval_cases m <;> rfl

/-- Length of the destination line for in-width content. -/
theorem destinationLine_length (d : String) (h : d.length ≤ 44) :
    (destinationLine d).length = 63 := by
  have h1 : ("│ → Destination:  " : String).length = 18 := rfl
  have h2 : ("│" : String).length = 1 := rfl
  simp only [destinationLine, String.length_append, printPadding_length, h1, h2]
  omega

/-- Length of the track line for in-width content. -/
theorem trackLine_length (t : String) (h : t.length ≤ 44) :
    (trackLine t).length = 63 := by
  have h1 : ("│   Track:        " : String).length = 18 := rfl
  have h2 : ("│" : String).length = 1 := rfl
  simp only [trackLine, String.length_append, printPadding_length, h1, h2]
  omega

/-- Length of the arrival line for in-width content. -/
theorem arrivalLine_length (a : String) (h : a.length ≤ 44) :
    (arrivalLine a).length = 63 := by
  have h1 : ("│   Arrival:      " : String).length = 18 := rfl
  have h2 : ("│" : String).length = 1 := rfl
  simp only [arrivalLine, String.length_append, printPadding_length, h1, h2]
  omega

/-- Length of the status line without a delay annotation. -/
theorem statusLine_length_no_delay (s : String) (d : Int) (hs : s.length ≤ 44)
    (hd : d ≤ 0) : (statusLine s d).length = 63 := by
  have h1 : ("│   Status:       " : String).length = 18 := rfl
  have h2 : ("│" : String).length = 1 := rfl
  rw [statusLine, if_neg (by omega)]
  simp only [String.length_append, printPadding_length, h1, h2]
  omega

/-- Length of the header line: `51` plus the width of the ordinal. -/
theorem headerLine_length (c : Nat) (r : String) (h : r.length ≤ 38) :
    (headerLine c r).length = 51 + (toString c).length := by
  have h1 : ("│ Train #" : String).length = 9 := rfl
  have h2 : (" - " : String).length = 3 := rfl
  have h3 : ("│" : String).length = 1 := rfl
  simp only [headerLine, String.length_append, printPadding_length, h1, h2, h3]
  omega

/-! Claims. -/

/-- C1, counterexample: the claim says a pass that ends early leaves the
last-update timestamp unchanged, but `loop()` (lines 75-78) sets
`lastUpdate = millis()` unconditionally after invoking the pass.  Here
the link is down, so the pass ends at the "Cannot fetch" notice and
`passSucceeded` is false, yet `lastUpdate` changes from 0 to 30200. -/
theorem C1_counterexample :
    passSucceeded ⟨false, 0, Except.error "", 0⟩ = false ∧
    fetchTrainData ⟨false, 0, Except.error "", 0⟩ =
      ["Cannot fetch data: WiFi not connected"] ∧
    (loopIteration ⟨false, 0, Except.error "", 0⟩ 30000 30200 0).1 = 30200 ∧
    (30200 : Nat) ≠ 0 := by
  refine ⟨rfl, rfl, ?_, by decide⟩
  rfl

/-- C1 (amended): whenever the update interval has elapsed, `loop()` runs
the pass and sets the last-update timestamp to the `millis()` value read
after the fetch, for every environment — succeeding or failing alike. -/
theorem C1_lastUpdate_updated_unconditionally (env : FetchEnv)
    (now afterFetch lastUpdate : Nat)
    (h : UPDATE_INTERVAL ≤ now - lastUpdate) :
    (loopIteration env now afterFetch lastUpdate).1 = afterFetch ∧
    (loopIteration env now afterFetch lastUpdate).2 = fetchTrainData env := by
  simp [loopIteration, h]

/-- C1 witness: the amended theorem applied to a failing pass with the
interval elapsed. -/
theorem C1_witness :
    (loopIteration ⟨false, 0, Except.error "", 0⟩ 30000 30200 0).1 = 30200 :=
  (C1_lastUpdate_updated_unconditionally ⟨false, 0, Except.error "", 0⟩
    30000 30200 0 (by decide)).1

/-- C2: evaluation of the rendering at the documented example record
(all fields within the documented column widths).  The claim — and the
source's own comment "Pad to align the right border" — requires all
bordered lines of a block to have equal width, but the header line has
52 characters, the field lines 63, and the borders 61. -/
theorem C2_block_width_bug :
    (headerLine 1 "Hudson Line").length = 52 ∧
    (destinationLine "Grand Central").length = 63 ∧
    (trackLine "5").length = 63 ∧
    (arrivalLine "14:30").length = 63 ∧
    (statusLine "On Time" 0).length = 63 ∧
    topBorder.length = 61 ∧
    separatorLine.length = 61 ∧
    bottomBorder.length = 61 ∧
    (headerLine 1 "Hudson Line").length ≠ topBorder.length ∧
    (destinationLine "Grand Central").length ≠ topBorder.length := by
  have hh : (headerLine 1 "Hudson Line").length = 52 := by
    rw [headerLine_length 1 "Hudson Line" (by decide)]
    decide
  have hd : (destinationLine "Grand Central").length = 63 :=
    destinationLine_length _ (by decide)
  have ht : (trackLine "5").length = 63 := trackLine_length _ (by decide)
  have ha : (arrivalLine "14:30").length = 63 := arrivalLine_length _ (by decide)
  have hs : (statusLine "On Time" 0).length = 63 :=
    statusLine_length_no_delay _ _ (by decide) (by decide)
  refine ⟨hh, hd, ht, ha, hs, rfl, rfl, rfl, ?_, ?_⟩
  · rw [hh]; decide
  · rw [hd]; decide

/-- C3, counterexample: the claim says the padding after the delay suffix
keeps the status line's closing border aligned at the fixed block width
for every digit count of minutes, but a one-digit delay line has 64
characters (other field lines have 63, cf. the no-delay line), and a
three-digit-minute delay (6000 s) yields 65. -/
theorem C3_counterexample :
    (statusLine "On Time" 125).length = 64 ∧
    (statusLine "On Time" 0).length = 63 ∧
    (statusLine "On Time" 6000).length = 65 := by
  refine ⟨?_, ?_, ?_⟩ <;>
    · simp only [statusLine, printPadding_eq_replicate]
      decide

/-- C3 (amended): for `delay_seconds > 0` the status line appends
`" (+<minutes> min)"` with `minutes = delay_seconds / 60` by integer
division (125 yields " (+2 min)"), and the padding shrinks by the literal
8 plus 1 more when `delay_seconds ≥ 600`; this keeps one- and two-digit
minute lines at a common width of 64 — one more than the other field
lines — while three-digit minutes (6000 s and up) yield 65, so the
border does not stay aligned across digit counts. -/
theorem C3_delay_suffix_and_width (s : String) (d : Int)
    (hs : s.length ≤ 35) (h0 : 0 < d) :
    statusLine s d =
      "│   Status:       " ++ s ++ " (+" ++ toString (d / 60) ++ " min)" ++
        printPadding 0 (44 - (s.length : Int) - 8 -
          (if d ≥ 600 then 1 else 0)) ++ "│" ∧
    (d < 6000 → (statusLine s d).length = 64) ∧
    (statusLine s 6000).length = 65 := by
  have h1 : ("│   Status:       " : String).length = 18 := rfl
  have h2 : ("│" : String).length = 1 := rfl
  have h3 : (" (+" : String).length = 3 := rfl
  have h4 : (" min)" : String).length = 5 := rfl
  have hfmt : statusLine s d =
      "│   Status:       " ++ s ++ " (+" ++ toString (d / 60) ++ " min)" ++
        printPadding 0 (44 - (s.length : Int) - 8 -
          (if d ≥ 600 then 1 else 0)) ++ "│" := by
    rw [statusLine, if_pos (show d > 0 from h0)]
  refine ⟨hfmt, ?_, ?_⟩
  · intro h6000
    rw [hfmt]
    by_cases h6 : (600 : Int) ≤ d
    · have hdig : (toString (d / 60)).length = 2 :=
        intToString_length_two _ (by omega) (by omega)
      rw [if_pos h6]
      simp only [String.length_append, printPadding_length, hdig, h1, h2, h3, h4]
      omega
    · have hdig : (toString (d / 60)).length = 1 :=
        intToString_length_one _ (by omega) (by omega)
      rw [if_neg h6]
      simp only [String.length_append, printPadding_length, hdig, h1, h2, h3, h4]
      omega
  · rw [statusLine, if_pos (by decide : (6000 : Int) > 0),
      if_pos (by decide : (6000 : Int) ≥ 600)]
    have hdig : (toString ((6000 : Int) / 60)).length = 3 := rfl
    simp only [String.length_append, printPadding_length, hdig, h1, h2, h3, h4]
    omega

/-- C3 witness: the amended theorem applied at status "On Time" and a
delay of 125 seconds, giving a 64-character line. -/
theorem C3_witness : (statusLine "On Time" 125).length = 64 :=
  (C3_delay_suffix_and_width "On Time" 125 (by decide) (by decide)).2.1 (by decide)

/-- C4, counterexample: for the body with an empty "trains" array the
claim says a total record count of zero is reported, but the code
returns right after the "No upcoming trains scheduled" notice (line 208)
and never prints a "Total trains:" line. -/
theorem C4_counterexample :
    "No upcoming trains scheduled" ∈
      displayTrainInfo (Json.obj [("trains", Json.arr [])]) 0 ∧
    (displayTrainInfo (Json.obj [("trains", Json.arr [])]) 0).all
      (fun l => !(l.data.take 13 == "Total trains:".data)) = true := by
  constructor
  · show "No upcoming trains scheduled" ∈
      bannerLines ++ ["No upcoming trains scheduled"]
    decide
  · show (bannerLines ++ ["No upcoming trains scheduled"]).all
      (fun l => !(l.data.take 13 == "Total trains:".data)) = true
    decide

/-- C4 (amended): the body with an empty "trains" array renders exactly
the banner and the "No upcoming trains scheduled" notice — not an error
report — and returns early, so no total count is printed at all. -/
theorem C4_empty_feed (t : Nat) :
    displayTrainInfo (Json.obj [("trains", Json.arr [])]) t =
      bannerLines ++ ["No upcoming trains scheduled"] ∧
    "Total trains: 0" ∉ displayTrainInfo (Json.obj [("trains", Json.arr [])]) t := by
  refine ⟨rfl, ?_⟩
  show "Total trains: 0" ∉ bannerLines ++ ["No upcoming trains scheduled"]
  decide

/-- C5: a decodable body without a top-level "trains" key is reported as
"No train data available" (lines 197-202), which is distinct from the
empty-array notice; both paths return normally (the rendering functions
are total), so neither terminates the process. -/
theorem C5_missing_key_distinct (t : Nat) :
    displayTrainInfo (Json.obj []) t = bannerLines ++ noTrainDataLines ∧
    "No train data available" ∈ displayTrainInfo (Json.obj []) t ∧
    "No upcoming trains scheduled" ∉ displayTrainInfo (Json.obj []) t ∧
    "No train data available" ∉
      displayTrainInfo (Json.obj [("trains", Json.arr [])]) t := by
  refine ⟨rfl, ?_, ?_, ?_⟩
  · show "No train data available" ∈ bannerLines ++ noTrainDataLines
    decide
  · show "No upcoming trains scheduled" ∉ bannerLines ++ noTrainDataLines
    decide
  · show "No train data available" ∉
      bannerLines ++ ["No upcoming trains scheduled"]
    decide

/-- C6: the record with no fields parses to every documented default with
`delay_seconds` 0, its status line carries no delay annotation (the
`delay_seconds > 0` branch is not taken), and for every record each
individually missing or wrongly-typed field falls back to its default
without aborting the record. -/
theorem C6_field_defaults :
    parseRecord (Json.obj []) =
      { trip_id := "N/A", route := "Unknown Route", destination := "Unknown",
        track := "TBD", arrival_time := "N/A", status := "Unknown",
        delay_seconds := 0 } ∧
    statusLine (parseRecord (Json.obj [])).status
        (parseRecord (Json.obj [])).delay_seconds =
      "│   Status:       " ++ "Unknown" ++
        printPadding 0 (44 - (("Unknown" : String).length : Int)) ++ "│" ∧
    (∀ j, isStr (getMember j "trip_id") = false →
      (parseRecord j).trip_id = "N/A") ∧
    (∀ j, isStr (getMember j "route") = false →
      (parseRecord j).route = "Unknown Route") ∧
    (∀ j, isStr (getMember j "destination") = false →
      (parseRecord j).destination = "Unknown") ∧
    (∀ j, isStr (getMember j "track") = false →
      (parseRecord j).track = "TBD") ∧
    (∀ j, isStr (getMember j "arrival_time") = false →
      (parseRecord j).arrival_time = "N/A") ∧
    (∀ j, isStr (getMember j "status") = false →
      (parseRecord j).status = "Unknown") ∧
    (∀ j, isInt (getMember j "delay_seconds") = false →
      (parseRecord j).delay_seconds = 0) := by
  refine ⟨rfl, rfl, ?_, ?_, ?_, ?_, ?_, ?_, ?_⟩
  all_goals intro j h
  · exact strOr_of_not_str _ _ h
  · exact strOr_of_not_str _ _ h
  · exact strOr_of_not_str _ _ h
  · exact strOr_of_not_str _ _ h
  · exact strOr_of_not_str _ _ h
  · exact strOr_of_not_str _ _ h
  · exact intOr_of_not_int _ _ h

/-- C6 witness: wrongly-typed `trip_id` (an integer) and `delay_seconds`
(a string) both fall back to their defaults. -/
theorem C6_witness :
    (parseRecord (Json.obj [("trip_id", Json.int 3),
        ("delay_seconds", Json.str "x")])).trip_id = "N/A" ∧
    (parseRecord (Json.obj [("trip_id", Json.int 3),
        ("delay_seconds", Json.str "x")])).delay_seconds = 0 :=
  ⟨C6_field_defaults.2.2.1 _ (by decide),
   C6_field_defaults.2.2.2.2.2.2.2.2 _ (by decide)⟩

/-- C7, counterexample: the claim says `connect()` is a no-op when the
link is already connected, but `connectWiFi()` calls `WiFi.mode` and
`WiFi.begin` unconditionally (lines 91-92), so even with the status
reporting connected throughout, a fresh join attempt is initiated. -/
theorem C7_counterexample :
    WifiEvent.beginJoin ∈ (connectWiFi (fun _ => true)).1 ∧
    (connectWiFi (fun _ => true)).1 =
      [WifiEvent.setModeSTA, WifiEvent.beginJoin] := by
  constructor
  · decide
  · decide

/-- C7 (amended): `connectWiFi()` always re-selects station mode and
re-initiates a join attempt, even when the link is already connected; in
that case the polling loop performs zero wait iterations and success is
reported, but the call is not a no-op. -/
theorem C7_connect_always_rejoins (wifiStatus : Nat → Bool)
    (h : wifiStatus 0 = true) :
    connectWiFi wifiStatus =
      ([WifiEvent.setModeSTA, WifiEvent.beginJoin], true) := by
  have hl : connectLoop wifiStatus 0 40 = 0 :=
    connectLoop_connected wifiStatus 0 39 h
  simp [connectWiFi, hl, h]

/-- C7 witness: the amended theorem at an always-connected link. -/
theorem C7_witness :
    connectWiFi (fun _ => true) =
      ([WifiEvent.setModeSTA, WifiEvent.beginJoin], true) :=
  C7_connect_always_rejoins (fun _ => true) rfl

/-- C8: the padding loop runs `i` from 0 while `i < padding`, so the
number of spaces emitted is the value clamped at zero and never
negative; a field longer than its column renders with zero padding and
the line is still produced (the renderers are total functions). -/
theorem C8_padding_never_negative (v : String) (c : Nat) :
    (printPadding 0 (44 - (v.length : Int))).length =
      ((44 : Int) - v.length).toNat ∧
    (44 < v.length →
      destinationLine v = "│ → Destination:  " ++ v ++ "│" ∧
      trackLine v = "│   Track:        " ++ v ++ "│" ∧
      arrivalLine v = "│   Arrival:      " ++ v ++ "│" ∧
      statusLine v 0 = "│   Status:       " ++ v ++ "│") ∧
    (38 < v.length →
      headerLine c v = "│ Train #" ++ toString c ++ " - " ++ v ++ "│") := by
  refine ⟨?_, ?_, ?_⟩
  · rw [printPadding_length]
    omega
  · intro h
    have hz : printPadding 0 (44 - (v.length : Int)) = "" :=
      printPadding_nonpos _ (by omega)
    refine ⟨?_, ?_, ?_, ?_⟩
    · rw [destinationLine, hz]; simp
    · rw [trackLine, hz]; simp
    · rw [arrivalLine, hz]; simp
    · rw [statusLine, if_neg (by omega : ¬(0 : Int) > 0), hz]; simp
  · intro h
    have hz : printPadding 0 (50 - (v.length : Int) - 12) = "" :=
      printPadding_nonpos _ (by omega)
    rw [headerLine, hz]; simp

/-- C8 witness: a 52-character destination overflows the 44-character
column and renders with zero padding spaces, without failing. -/
theorem C8_witness :
    destinationLine "This destination name is much longer than the column" =
      "│ → Destination:  " ++
        "This destination name is much longer than the column" ++ "│" :=
  ((C8_padding_never_negative
      "This destination name is much longer than the column" 0).2.1
    (by decide)).1

/-- C9: the polling loop of `connectWiFi()` performs at most 40 wait
iterations of 500 ms each, so the call blocks for at most
`500 × 40 = 20000` ms before reporting success or failure, for every
behaviour of the underlying link. -/
theorem C9_connect_bounded (wifiStatus : Nat → Bool) :
    (connectWiFi wifiStatus).1.count WifiEvent.waitDot =
      connectLoop wifiStatus 0 40 ∧
    (connectWiFi wifiStatus).1.count WifiEvent.waitDot ≤ 40 ∧
    500 * ((connectWiFi wifiStatus).1.count WifiEvent.waitDot) ≤ 500 * 40 := by
  have hc : (connectWiFi wifiStatus).1.count WifiEvent.waitDot =
      connectLoop wifiStatus 0 40 := by
    show ([WifiEvent.setModeSTA, WifiEvent.beginJoin] ++
        List.replicate (connectLoop wifiStatus 0 40)
          WifiEvent.waitDot).count WifiEvent.waitDot = _
    rw [List.count_append, List.count_replicate_self]
    have h0 : List.count WifiEvent.waitDot
        [WifiEvent.setModeSTA, WifiEvent.beginJoin] = 0 := by decide
    omega
  have hb : connectLoop wifiStatus 0 40 ≤ 40 := by
    have := connectLoop_le wifiStatus 40 0
    omega
  exact ⟨hc, by omega, by omega⟩

/-- C10: a document whose "trains" key holds a non-array value renders
exactly like the empty-feed case — the null `JsonArray` view has size 0
— and not like the missing-key report, conflating the type mismatch
with an empty feed. -/
theorem C10_nonarray_trains_conflated (v : Json) (t : Nat)
    (h : isArr v = false) :
    displayTrainInfo (Json.obj [("trains", v)]) t =
      displayTrainInfo (Json.obj [("trains", Json.arr [])]) t ∧
    "No upcoming trains scheduled" ∈
      displayTrainInfo (Json.obj [("trains", v)]) t ∧
    "No train data available" ∉
      displayTrainInfo (Json.obj [("trains", v)]) t := by
  have ha : asArray v = [] := asArray_of_not_arr v h
  have key : displayTrainInfo (Json.obj [("trains", v)]) t =
      bannerLines ++ ["No upcoming trains scheduled"] := by
    simp [displayTrainInfo, containsKey, getMember, ha]
  have key2 : displayTrainInfo (Json.obj [("trains", Json.arr [])]) t =
      bannerLines ++ ["No upcoming trains scheduled"] := rfl
  refine ⟨key.trans key2.symm, ?_, ?_⟩
  · rw [key]; decide
  · rw [key]; decide

/-- C10 witness: an integer-valued "trains" key renders like the empty
feed. -/
theorem C10_witness :
    displayTrainInfo (Json.obj [("trains", Json.int 7)]) 0 =
      displayTrainInfo (Json.obj [("trains", Json.arr [])]) 0 :=
  (C10_nonarray_trains_conflated (Json.int 7) 0 rfl).1

/-- C4 witness: the amended theorem applied at time 0. -/
theorem C4_witness :
    displayTrainInfo (Json.obj [("trains", Json.arr [])]) 0 =
      bannerLines ++ ["No upcoming trains scheduled"] :=
  (C4_empty_feed 0).1

/-- C5 witness: the theorem applied at time 0. -/
theorem C5_witness :
    displayTrainInfo (Json.obj []) 0 = bannerLines ++ noTrainDataLines :=
  (C5_missing_key_distinct 0).1

/-- C9 witness: the bound applied to a link that never comes up. -/
theorem C9_witness :
    (connectWiFi (fun _ => false)).1.count WifiEvent.waitDot ≤ 40 :=
  (C9_connect_bounded (fun _ => false)).2.1

end MNR
